import Mathlib

/-!
Shallow embedding of the pyoz Ornstein-Zernike solver core (src/pyoz/core.py).

Conventions of the embedding:
* Numeric values live in an arbitrary `LinearOrderedField α` (floating point is
  modelled exactly; `np.pi` is an abstract constant `Ext.pi`).
* A rank-3 numpy tensor of shape (nc, nc, n_points) is a function
  `ℕ → ℕ → ℕ → α` (`Ten3`); only indices below the dimensions are meaningful.
* `self.U_r` is modelled by `NDArr`, a flat C-order buffer plus a shape, so
  that `ndarray.resize` keeps its exact numpy semantics (flat data preserved,
  zero padding at the end, reinterpretation under the new shape).
* The possibility that the float-valued convergence metric is NaN or infinite
  is modelled by the type `FV`: a finite field value or one of the IEEE
  specials, with the IEEE rule that comparisons against NaN are false.
* External collaborators (scipy sine transforms, numpy sqrt and sin, the
  closure registry from pyoz.closure, and the helpers of pyoz.misc which are
  not part of the given sources) enter through the parameter record `Ext`.
* Exceptions are modelled by `Except PyozError`; `solve` additionally returns
  the final object state and the number of loop iterations that executed.
-/

set_option autoImplicit false

namespace Pyoz

variable {α : Type} [LinearOrderedField α]

/-- A rank-3 tensor of shape (nc, nc, n_points), indexed (component, component, grid point). -/
def Ten3 (α : Type) : Type := ℕ → ℕ → ℕ → α

/-- The zero tensor, `np.zeros_like`. -/
def zeroTen : Ten3 α := fun _ _ _ => 0

/-- `pyoz.exceptions.PyozError` (module not in the given sources): an
exception carrying a message. -/
structure PyozError where
  msg : String
  deriving DecidableEq

/-- A floating point scalar: a finite field value or one of the IEEE special
values.  Used for the convergence metric `rms_norm`, the only place where
core.py tests for NaN or infinity. -/
inductive FV (α : Type) where
  | finite (q : α)
  | inf
  | neginf
  | nan
  deriving DecidableEq

/-- IEEE semantics of the python comparison `rms_norm < tol` for a finite
`tol`: any comparison with NaN is `False`; `+inf < tol` is `False`;
`-inf < tol` is `True`. -/
def fvLt (m : FV α) (tol : α) : Bool :=
  match m with
  | FV.finite q => decide (q < tol)
  | FV.inf => false
  | FV.neginf => true
  | FV.nan => false

/-- `np.isnan(m) or np.isinf(m)` (numpy counts both infinities as infinite). -/
def isNanOrInf (m : FV α) : Bool :=
  match m with
  | FV.finite _ => false
  | FV.inf => true
  | FV.neginf => true
  | FV.nan => true

/-- The keyword arguments of `solve` that `_get_closure_func` inspects for the
RHNC closure, and which are forwarded to every closure call. -/
structure Kwargs (α : Type) where
  g_r_ref : Option (Ten3 α)
  e_r_ref : Option (Ten3 α)
  U_r_ref : Option (Ten3 α)

/-- The contract of a closure function: `closure(U_r, e_r, T, **kwargs)`. -/
def ClosureFn (α : Type) : Type := Ten3 α → Ten3 α → α → Kwargs α → Ten3 α

/-- External collaborators of core.py.

* `pi`, `sine`, `sqrt` stand for `np.pi`, the sine used by the scipy
  transforms, and `np.sqrt` (external numpy/scipy functionality).
* `solver` — Modelled from the spec: `pyoz.misc.solver` is not in the given
  sources; per spec section 4.5 it solves, at every reciprocal grid point, the
  dense linear system `A · H = B`.  Its values are kept abstract.
* `rms` — Modelled from the spec: `pyoz.misc.rms_normed` is not in the given
  sources; per spec section 4.6 it computes a single scalar RMS-normalized
  deviation between the candidate and previous indirect correlation.  As a
  float computation it may in principle produce NaN or an infinity, hence the
  codomain `FV α`.
* `registry` — the mapping `pyoz.closure.supported_closures` (closures are
  external collaborators per spec sections 1 and 4.3), keyed by upper-case
  closure name. -/
structure Ext (α : Type) where
  pi : α
  sine : α → α
  sqrt : α → α
  solver : Ten3 α → Ten3 α → Ten3 α
  rms : Ten3 α → Ten3 α → FV α
  registry : String → Option (ClosureFn α)

/-- A numpy ndarray of shape (shape0, shape0, npts) as held in `System.U_r`:
the flat C-order buffer `data` together with the shape.  Entry (i, j, m) lives
at flat offset `(i * shape0 + j) * npts + m`. -/
structure NDArr (α : Type) where
  shape0 : ℕ
  npts : ℕ
  data : ℕ → α

/-- Read the ndarray as a tensor: `U[i, j, m]`. -/
def NDArr.get (U : NDArr α) : Ten3 α :=
  fun i j m => U.data ((i * U.shape0 + j) * U.npts + m)

/-- `ndarray.resize((nc2, nc2, npts))` for an enlargement: numpy keeps the flat
buffer, fills the missing entries at its end with zeros and reinterprets the
data under the new shape (it does not move any block). -/
def NDArr.resizeTo (U : NDArr α) (nc2 : ℕ) : NDArr α :=
  ⟨nc2, U.npts, fun t => if t < U.shape0 * U.shape0 * U.npts then U.data t else 0⟩

/-- `U[i, j] = potential`: overwrite the length-`npts` block of the (i, j) pair. -/
def NDArr.writeBlock (U : NDArr α) (i j : ℕ) (p : List α) : NDArr α :=
  ⟨U.shape0, U.npts, fun t =>
    if (i * U.shape0 + j) * U.npts ≤ t ∧ t < (i * U.shape0 + j) * U.npts + U.npts
    then p.getD (t - (i * U.shape0 + j) * U.npts) 0
    else U.data t⟩

/-- The `System` object.  `r` and `k` are the grid arrays (meaningful on
indices below `n_points`); the five result tensors start out as `None`. -/
structure System (α : Type) where
  T : α
  n_points : ℕ
  dr : α
  dk : α
  r : ℕ → α
  k : ℕ → α
  U_r : NDArr α
  rho : Option (ℕ → ℕ → α)
  g_r : Option (Ten3 α)
  h_r : Option (Ten3 α)
  c_r : Option (Ten3 α)
  e_r : Option (Ten3 α)
  S_k : Option (Ten3 α)

/-- Python `kwargs.get(key) or default`: `None` and the falsy value `0` both
fall back to the default. -/
def pyOr {β : Type} [Zero β] [DecidableEq β] (o : Option β) (d : β) : β :=
  match o with
  | none => d
  | some v => if v = 0 then d else v

/-- `np.linspace(start, stop, num)` (endpoint included): point m is
`start + m * (stop - start) / (num - 1)`; for `num = 1` numpy returns
`[start]`, matched here because division by zero yields zero. -/
def linspace (start stop : α) (num : ℕ) : ℕ → α :=
  fun m => start + (m : α) * ((stop - start) / ((num - 1 : ℕ) : α))

/-- `System.__init__`: grid construction.  `n_points` defaults to
`2 ** n_points_exp` (exponent default 12) and is then decremented by one;
`dr` defaults to 0.01; `max_r = dr * n_points`; `dk = pi / max_r`;
`r = linspace(dr, n_points * dr - dr, n_points)` and likewise `k`;
`U_r = np.zeros((0, 0, n_points))`; results start unset. -/
def System.init (pi : α) (Topt : Option α) (expOpt : Option ℕ) (npOpt : Option ℕ)
    (drOpt : Option α) : System α :=
  let T := pyOr Topt 1
  let n_points_exp := pyOr expOpt 12
  let P := pyOr npOpt (2 ^ n_points_exp) - 1
  let dr := pyOr drOpt (1 / 100)
  let max_r := dr * (P : α)
  let dk := pi / max_r
  { T := T
    n_points := P
    dr := dr
    dk := dk
    r := linspace dr ((P : α) * dr - dr) P
    k := linspace dk ((P : α) * dk - dk) P
    U_r := ⟨0, P, fun _ => 0⟩
    rho := none
    g_r := none, h_r := none, c_r := none, e_r := none, S_k := none }

/-- `System.n_components` is `U_r.shape[0]`, derived from the tensor extent. -/
def System.n_components (s : System α) : ℕ := s.U_r.shape0

/-- `System.set_interaction(comp1_idx, comp2_idx, potential, symmetric)`:
length check against `n_points`; if an index reaches the current component
count, `U_r.resize` to `max(i, j) + 1` components; then the block writes (the
symmetric write appears twice in the source, which is idempotent). -/
def setInteraction (s : System α) (comp1_idx comp2_idx : ℕ) (potential : List α)
    (symmetric : Bool) : Except PyozError (System α) :=
  if potential.length ≠ s.n_points then
    Except.error ⟨"Attempted to add values at " ++ toString potential.length ++
      " points to potentialwith " ++ toString s.n_points ++ " points."⟩
  else
    let U0 := if s.U_r.shape0 ≤ comp1_idx ∨ s.U_r.shape0 ≤ comp2_idx
      then s.U_r.resizeTo (max comp1_idx comp2_idx + 1) else s.U_r
    let U1 := U0.writeBlock comp1_idx comp2_idx potential
    let U2 := if symmetric ∧ comp1_idx ≠ comp2_idx
      then U1.writeBlock comp2_idx comp1_idx potential else U1
    let U3 := if symmetric ∧ comp1_idx ≠ comp2_idx
      then U2.writeBlock comp2_idx comp1_idx potential else U2
    Except.ok { s with U_r := U3 }

/-- Modelled from the spec: `pyoz.misc.picard_iteration` is not in the given
sources; per spec section 4.6 the damped update is
`e_next = mix_param * e_new + (1 - mix_param) * e_old`, applied entrywise
(core.py calls it as `picard_iteration(e_r, e_r_previous, mix_param)`). -/
def picard_iteration (e_new e_old : Ten3 α) (mix_param : α) : Ten3 α :=
  fun i j m => mix_param * e_new i j m + (1 - mix_param) * e_old i j m

/-- `scipy.fftpack.dst(x, type=1)` on a length-`N` input:
`y[m] = 2 * sum_{n < N} x[n] * sin(pi * (m+1) * (n+1) / (N+1))`, with the sine
and pi abstracted into parameters. -/
def dstTypeI (sine : α → α) (pi : α) (N : ℕ) (x : ℕ → α) (m : ℕ) : α :=
  2 * ∑ n in Finset.range N, x n * sine (pi * ((m : α) + 1) * ((n : α) + 1) / ((N : α) + 1))

/-- `scipy.fftpack.idst(x, type=1)`: the unnormalized inverse of the type-I
discrete sine transform, which coincides with the forward type-I transform. -/
def idstTypeI (sine : α → α) (pi : α) (N : ℕ) (x : ℕ → α) (m : ℕ) : α :=
  dstTypeI sine pi N x m

/-- The forward transform loop of `System.solve` (core.py lines 120-123):
`constant = 2 * np.pi * self.rho[i, j] * self.dr / self.k` and
`C_k[i, j] = constant * dst(c_r[i, j] * self.r, type=1)`. -/
def forwardCk (ext : Ext α) (s : System α) (rho : ℕ → ℕ → α) (c_r : Ten3 α) : Ten3 α :=
  fun i j m =>
    2 * ext.pi * rho i j * s.dr / s.k m *
      dstTypeI ext.sine ext.pi s.n_points (fun n => c_r i j n * s.r n) m

/-- The inverse transform loop of `System.solve` (core.py lines 133-136):
`constant = n_points * self.dk / 4 / np.pi**2 / (n_points + 1) / self.r / self.rho[i, j]`
and `e_r[i, j] = constant * idst(E_k[i, j] * self.k, type=1)`. -/
def inverseEr (ext : Ext α) (s : System α) (rho : ℕ → ℕ → α) (E_k : Ten3 α) : Ten3 α :=
  fun i j m =>
    (s.n_points : α) * s.dk / 4 / ext.pi ^ 2 / ((s.n_points : α) + 1) / s.r m / rho i j *
      idstTypeI ext.sine ext.pi s.n_points (fun n => E_k i j n * s.k n) m

/-- What one loop iteration of `System.solve` computes from the current
indirect correlation: the candidate `e_new` and the structure factor `S_k`.
Sequence (core.py lines 116-136): closure; forward transform; `A = E - C_k`
with `E` the per-point identity; `H_k = solver(A, C_k)`; `S_k = 1 + H_k`;
`E_k = H_k - C_k`; inverse transform. -/
def iterate (ext : Ext α) (s : System α) (rho : ℕ → ℕ → α) (kw : Kwargs α)
    (cl : ClosureFn α) (e_r : Ten3 α) : Ten3 α × Ten3 α :=
  let c_r := cl s.U_r.get e_r s.T kw
  let C_k := forwardCk ext s rho c_r
  let A : Ten3 α := fun i j m => (if i = j then (1 : α) else 0) - C_k i j m
  let H_k := ext.solver A C_k
  let S_k : Ten3 α := fun i j m => 1 + H_k i j m
  let E_k : Ten3 α := fun i j m => H_k i j m - C_k i j m
  (inverseEr ext s rho E_k, S_k)

/-- Outcome of one convergence test (core.py lines 138-147). -/
inductive StepRes (α : Type) where
  | diverge
  | accept (e : Ten3 α)
  | continueWith (e : Ten3 α)

/-- The decision taken after the inverse transform, exactly as sequenced in the
source: first `if rms_norm < tol: break` (accepting `e_new` unmixed), then
`if np.isnan(rms_norm) or np.isinf(rms_norm): raise`, else
`e_r = picard_iteration(e_r, e_r_previous, mix_param)`. -/
def stepDecision (m : FV α) (tol mix_param : α) (e_new e_old : Ten3 α) : StepRes α :=
  if fvLt m tol then StepRes.accept e_new
  else if isNanOrInf m then StepRes.diverge
  else StepRes.continueWith (picard_iteration e_new e_old mix_param)

/-- The decision rule exactly as the spec words it (section 4.6): (1) NaN or
infinite metric fails first; (2) else a metric below tolerance accepts `e_new`
with no mixing; (3) else continue with
`mix_param * e_new + (1 - mix_param) * e_old`. -/
def specStepDecision (m : FV α) (tol mix_param : α) (e_new e_old : Ten3 α) : StepRes α :=
  if isNanOrInf m then StepRes.diverge
  else if fvLt m tol then StepRes.accept e_new
  else StepRes.continueWith
    (fun i j n => mix_param * e_new i j n + (1 - mix_param) * e_old i j n)

/-- Result of the `while n_iter < max_iter` loop, with the iteration count at
which the loop ended. -/
inductive LoopRes (α : Type) where
  | diverged (n_iter : ℕ)
  | budget (n_iter : ℕ)
  | converged (e : Ten3 α) (S : Ten3 α) (n_iter : ℕ)

def LoopRes.isConverged : LoopRes α → Bool
  | LoopRes.converged _ _ _ => true
  | _ => false

def LoopRes.isBudget : LoopRes α → Bool
  | LoopRes.budget _ => true
  | _ => false

def LoopRes.isDiverged : LoopRes α → Bool
  | LoopRes.diverged _ => true
  | _ => false

/-- The accepted indirect correlation of a converged loop (zero otherwise). -/
def LoopRes.getE : LoopRes α → Ten3 α
  | LoopRes.converged e _ _ => e
  | _ => zeroTen

/-- The structure factor of the final iteration of a converged loop. -/
def LoopRes.getS : LoopRes α → Ten3 α
  | LoopRes.converged _ S _ => S
  | _ => zeroTen

def LoopRes.iterCount : LoopRes α → ℕ
  | LoopRes.diverged n => n
  | LoopRes.budget n => n
  | LoopRes.converged _ _ n => n

/-- The `while n_iter < max_iter` loop of `System.solve` (lines 111-154),
with the remaining iteration budget as fuel and `n_iter` incremented at the
top of each pass; the `for ... else` clause of the while loop corresponds to
running out of fuel. -/
def solveLoop (ext : Ext α) (s : System α) (rho : ℕ → ℕ → α) (tol mix_param : α)
    (kw : Kwargs α) (cl : ClosureFn α) : ℕ → ℕ → Ten3 α → LoopRes α
  | 0, n_iter, _ => LoopRes.budget n_iter
  | fuel + 1, n_iter, e_r =>
    match stepDecision (ext.rms (iterate ext s rho kw cl e_r).1 e_r) tol mix_param
        (iterate ext s rho kw cl e_r).1 e_r with
    | StepRes.accept e => LoopRes.converged e (iterate ext s rho kw cl e_r).2 (n_iter + 1)
    | StepRes.diverge => LoopRes.diverged (n_iter + 1)
    | StepRes.continueWith e2 => solveLoop ext s rho tol mix_param kw cl fuel (n_iter + 1) e2

/-- `(S_k < 0).any()` over the full (nc, nc, n_points) extent. -/
def anyNeg (nc np : ℕ) (S : Ten3 α) : Bool :=
  (List.range nc).any fun i =>
    (List.range nc).any fun j =>
      (List.range np).any fun m => decide (S i j m < 0)

/-- `System._validate_solve_inputs`: no interactions yet, then density count
against `U_r.shape[0]` (densities are taken as a list; the python wrapping of
a scalar into a singleton list is left to the caller). -/
def validateSolveInputs (s : System α) (rhos : List α) : Except PyozError (List α) :=
  if s.U_r.shape0 = 0 then
    Except.error ⟨"No interactions to solve. Use `add_interaction`before calling `solve`."⟩
  else if s.U_r.shape0 ≠ rhos.length then
    Except.error ⟨"Number of ρs provided does not match dimensions of potential"⟩
  else Except.ok rhos

/-- `_get_closure_func(closure_name, **kwargs)`: for RHNC the three reference
fields must be present, then the upper-cased name is looked up in
`supported_closures`. -/
def getClosureFunc (registry : String → Option (ClosureFn α)) (closure_name : String)
    (kw : Kwargs α) : Except PyozError (ClosureFn α) :=
  if closure_name.toUpper = "RHNC" ∧ kw.g_r_ref.isNone then
    Except.error ⟨"Missing `g_r_ref` parameter for RHNC closure."⟩
  else if closure_name.toUpper = "RHNC" ∧ kw.e_r_ref.isNone then
    Except.error ⟨"Missing `e_r_ref` parameter for RHNC closure."⟩
  else if closure_name.toUpper = "RHNC" ∧ kw.U_r_ref.isNone then
    Except.error ⟨"Missing `U_r_ref` parameter for RHNC closure."⟩
  else
    match registry closure_name.toUpper with
    | none => Except.error ⟨"Unsupported closure: " ++ closure_name⟩
    | some cl => Except.ok cl

/-- `System._set_rhos`: `rho[i, j] = np.sqrt(rhos[i] * rhos[j])`. -/
def setRhos (ext : Ext α) (rhos : List α) : ℕ → ℕ → α :=
  fun i j => ext.sqrt (rhos.getD i 0 * rhos.getD j 0)

/-- What a `solve` call produces: the returned value or the raised exception,
the final state of the `System` object, and how many loop iterations ran. -/
structure SolveOut (α : Type) where
  res : Except PyozError (Ten3 α × Ten3 α × Ten3 α × Ten3 α)
  sys : System α
  iters : ℕ

def exceptIsErr {ε β : Type} : Except ε β → Bool
  | Except.error _ => true
  | Except.ok _ => false

/-- Everything `System.solve` does once the loop has delivered its outcome
(core.py lines 153-171): on divergence or an exhausted budget the stored
tensors are untouched; on convergence the closure is evaluated once more on
the converged `e`, `g = c + e + 1` and `h = g - 1` are derived, all five
tensors are stored, and only then is the structure factor sign-checked. -/
def solveAfterLoop (s1 : System α) (kw : Kwargs α) (cl : ClosureFn α)
    (L : LoopRes α) : SolveOut α :=
  match L with
  | LoopRes.diverged n =>
    ⟨Except.error ⟨"Diverged at iteration # " ++ toString n⟩, s1, n⟩
  | LoopRes.budget n =>
    ⟨Except.error ⟨"Exceeded max # of iterations: " ++ toString n⟩, s1, n⟩
  | LoopRes.converged e S n =>
    let c := cl s1.U_r.get e s1.T kw
    let g : Ten3 α := fun i j m => c i j m + e i j m + 1
    let s2 := { s1 with c_r := some c, g_r := some g,
                        h_r := some (fun i j m => g i j m - 1),
                        e_r := some e, S_k := some S }
    if anyNeg s1.U_r.shape0 s1.n_points S
    then ⟨Except.error ⟨"Converged to unphysical result."⟩, s2, n⟩
    else ⟨Except.ok (g, c, e, S), s2, n⟩

/-- The iteration loop exactly as `solve` launches it: on the object with
`self.rho` freshly set, starting at `n_iter = 0` from the supplied or zero
initial indirect correlation. -/
def loopOf (ext : Ext α) (s : System α) (rhos2 : List α) (tol mix_param : α)
    (kw : Kwargs α) (cl : ClosureFn α) (max_iter : ℕ)
    (initial_e_r : Option (Ten3 α)) : LoopRes α :=
  solveLoop ext { s with rho := some (setRhos ext rhos2) } (setRhos ext rhos2)
    tol mix_param kw cl max_iter 0 (initial_e_r.getD zeroTen)

/-- `System.solve(rhos, closure_name, initial_e_r, mix_param, tol, max_iter,
**kwargs)`: validate, fetch the closure, set `self.rho`, start from the given
or zero initial indirect correlation, run the loop, finish with
`solveAfterLoop`. -/
def solve (ext : Ext α) (s : System α) (rhos : List α) (closure_name : String)
    (initial_e_r : Option (Ten3 α)) (mix_param tol : α) (max_iter : ℕ)
    (kw : Kwargs α) : SolveOut α :=
  match validateSolveInputs s rhos with
  | Except.error e => ⟨Except.error e, s, 0⟩
  | Except.ok rhos2 =>
    match getClosureFunc ext.registry closure_name kw with
    | Except.error e => ⟨Except.error e, s, 0⟩
    | Except.ok cl =>
      solveAfterLoop { s with rho := some (setRhos ext rhos2) } kw cl
        (loopOf ext s rhos2 tol mix_param kw cl max_iter initial_e_r)

/-! Concrete instances over ℚ, used to exercise the embedding in witnesses. -/

/-- A toy closure: returns the indirect correlation unchanged. -/
def toyClosure : ClosureFn ℚ := fun _U e _T _kw => e

/-- A toy closure returning the constant -1 direct correlation. -/
def toyClosureNeg : ClosureFn ℚ := fun _U _e _T _kw => fun _ _ _ => -1

/-- A toy closure registry with two entries. -/
def toyRegistry : String → Option (ClosureFn ℚ) :=
  fun n => if n = "HNC" then some toyClosure else
    if n = "NEG" then some toyClosureNeg else none

/-- A toy linear solver standing in for the abstract `pyoz.misc.solver`. -/
def toySolver : Ten3 ℚ → Ten3 ℚ → Ten3 ℚ := fun _A B => B

/-- Toy externals whose RMS metric is always 0 (immediate convergence). -/
def extConv : Ext ℚ := ⟨3, fun _ => 1, id, toySolver, fun _ _ => FV.finite 0, toyRegistry⟩

/-- Toy externals whose RMS metric is always 1 (never converges). -/
def extStuck : Ext ℚ := ⟨3, fun _ => 1, id, toySolver, fun _ _ => FV.finite 1, toyRegistry⟩

/-- Toy externals whose RMS metric is always NaN (immediate divergence). -/
def extNan : Ext ℚ := ⟨3, fun _ => 1, id, toySolver, fun _ _ => FV.nan, toyRegistry⟩

/-- Empty keyword arguments. -/
def noKw : Kwargs ℚ := ⟨none, none, none⟩

/-- A freshly constructed system with a one-point grid (`n_points` kwarg 2). -/
def toyBase : System ℚ := System.init 3 none none (some 2) (some 1)

/-- `toyBase` after `set_interaction(0, 0, [2])`: one component. -/
def toySys : System ℚ :=
  match setInteraction toyBase 0 0 [2] true with
  | Except.ok s => s
  | Except.error _ => toyBase

/-! Definitions used by the C2 evaluation: a sequence of insertions that grows
the interaction tensor from two to three components. -/

/-- Chain a `set_interaction` of the singleton potential `[v]` at `(i, j)`. -/
def c2after (e : Except PyozError (System ℚ)) (i j : ℕ) (v : ℚ) :
    Except PyozError (System ℚ) :=
  e.bind fun s => setInteraction s i j [v] true

/-- A two-component system on a one-point grid: pair (0,0) holds 2 and pair
(1,1) holds 5. -/
def c2sysBefore : Except PyozError (System ℚ) :=
  c2after (c2after (Except.ok (System.init 3 none none (some 2) (some 1))) 0 0 2) 1 1 5

/-- `c2sysBefore` after `set_interaction(2, 2, [7])`, which grows the tensor to
three components. -/
def c2sysAfter : Except PyozError (System ℚ) := c2after c2sysBefore 2 2 7

/-- Read `U_r[i, j, m]` out of a possibly failed insertion chain (37 on error,
an otherwise unused marker). -/
def getUval (e : Except PyozError (System ℚ)) (i j m : ℕ) : ℚ :=
  match e with
  | Except.ok s => s.U_r.get i j m
  | Except.error _ => 37

/-- Read the component count out of a possibly failed insertion chain. -/
def getShape (e : Except PyozError (System ℚ)) : ℕ :=
  match e with
  | Except.ok s => s.U_r.shape0
  | Except.error _ => 0

/-! Theorems. -/

theorem init_dk_eq (pi : α) (Topt : Option α) (expOpt npOpt : Option ℕ) (drOpt : Option α) :
    (System.init pi Topt expOpt npOpt drOpt).dk =
      pi / ((System.init pi Topt expOpt npOpt drOpt).dr *
        ((System.init pi Topt expOpt npOpt drOpt).n_points : α)) := rfl

theorem init_r_eq (pi : α) (Topt : Option α) (expOpt npOpt : Option ℕ) (drOpt : Option α) :
    (System.init pi Topt expOpt npOpt drOpt).r =
      linspace (System.init pi Topt expOpt npOpt drOpt).dr
        (((System.init pi Topt expOpt npOpt drOpt).n_points : α) *
            (System.init pi Topt expOpt npOpt drOpt).dr -
          (System.init pi Topt expOpt npOpt drOpt).dr)
        (System.init pi Topt expOpt npOpt drOpt).n_points := rfl

theorem init_k_eq (pi : α) (Topt : Option α) (expOpt npOpt : Option ℕ) (drOpt : Option α) :
    (System.init pi Topt expOpt npOpt drOpt).k =
      linspace (System.init pi Topt expOpt npOpt drOpt).dk
        (((System.init pi Topt expOpt npOpt drOpt).n_points : α) *
            (System.init pi Topt expOpt npOpt drOpt).dk -
          (System.init pi Topt expOpt npOpt drOpt).dk)
        (System.init pi Topt expOpt npOpt drOpt).n_points := rfl

/-- The closed form of the numpy linspace actually constructed by
`System.__init__`: its step is `(P - 2) / (P - 1) * d`, not `d`. -/
theorem linspace_step (d : α) (P : ℕ) (hP : 2 ≤ P) (m : ℕ) :
    linspace d ((P : α) * d - d) P m =
      d + (m : α) * (((P : α) - 2) * d / ((P : α) - 1)) := by
  have h1 : ((P - 1 : ℕ) : α) = (P : α) - 1 := by
    rw [Nat.cast_sub (by omega : 1 ≤ P), Nat.cast_one]
  unfold linspace
  rw [h1]
  ring

/-- C1: after the inverse transform, a single scalar metric
`rms(e_new, e_old)` drives the step decision, and the decision the code takes
(testing `rms < tol` before the NaN/infinity test) agrees with the rule as
the spec orders it — divergence on a NaN or infinite metric first, acceptance
of the unmixed `e_new` below tolerance second, damped mixing
`mix_param * e_new + (1 - mix_param) * e_old` otherwise — for every metric
value a nonnegative RMS can take (everything except negative infinity). -/
theorem claim_C1 (m : FV α) (tol mix_param : α) (e_new e_old : Ten3 α)
    (h : m ≠ FV.neginf) :
    stepDecision m tol mix_param e_new e_old =
      specStepDecision m tol mix_param e_new e_old := by
  cases m with
  | finite q =>
    by_cases hq : q < tol
    · simp [stepDecision, specStepDecision, fvLt, isNanOrInf, hq]
    · simp only [stepDecision, specStepDecision, fvLt, isNanOrInf, hq, decide_False,
        Bool.false_eq_true, if_false]
      rfl
  | inf => simp [stepDecision, specStepDecision, fvLt, isNanOrInf]
  | neginf => exact absurd rfl h
  | nan => simp [stepDecision, specStepDecision, fvLt, isNanOrInf]

/-- Witness for C1: a finite metric value. -/
theorem claim_C1_witness :
    (FV.finite (1 : ℚ) ≠ FV.neginf) ∧
      stepDecision (FV.finite (1 : ℚ)) 2 (4 / 5) zeroTen zeroTen =
        specStepDecision (FV.finite (1 : ℚ)) 2 (4 / 5) zeroTen zeroTen :=
  ⟨by decide, claim_C1 _ _ _ _ _ (by decide)⟩

/-- C3: the forward loop computes
`C(i,j,m) = 2 pi rho(i,j) dr / k(m) * DST-I((c(i,j,.) * r(.)))(m)` and the
inverse loop computes
`e(i,j,m) = n_points dk / (4 pi^2 (n_points+1) r(m) rho(i,j)) * IDST-I((E(i,j,.) * k(.)))(m)`,
with exactly these scaling constants (the transforms being the length
`n_points` type-I discrete sine transform pair of scipy). -/
theorem claim_C3 (ext : Ext α) (s : System α) (rho : ℕ → ℕ → α) (c_r E_k : Ten3 α)
    (i j m : ℕ) :
    forwardCk ext s rho c_r i j m =
      2 * ext.pi * rho i j * s.dr / s.k m *
        dstTypeI ext.sine ext.pi s.n_points (fun n => c_r i j n * s.r n) m ∧
    inverseEr ext s rho E_k i j m =
      (s.n_points : α) * s.dk /
          (4 * ext.pi ^ 2 * ((s.n_points : α) + 1) * s.r m * rho i j) *
        idstTypeI ext.sine ext.pi s.n_points (fun n => E_k i j n * s.k n) m := by
  refine ⟨rfl, ?_⟩
  unfold inverseEr
  simp only [div_div]

/-- C4 fails as stated: with `n_points = 3` and `dr = 1` the constructed grid
has stored `n_points = 2` and `r[1] = 1`, not `dr + 1 * dr = 2` — the linspace
stop value is `n_points * dr - dr`, so the spacing is not `dr`. -/
theorem claim_C4_counterexample :
    ¬ ((System.init (355 / 113 : ℚ) none none (some 3) (some 1)).dk =
        (355 / 113 : ℚ) /
          (((System.init (355 / 113 : ℚ) none none (some 3) (some 1)).n_points : ℚ) *
            (System.init (355 / 113 : ℚ) none none (some 3) (some 1)).dr) ∧
      (∀ m < (System.init (355 / 113 : ℚ) none none (some 3) (some 1)).n_points,
        (System.init (355 / 113 : ℚ) none none (some 3) (some 1)).r m =
          (System.init (355 / 113 : ℚ) none none (some 3) (some 1)).dr +
            (m : ℚ) * (System.init (355 / 113 : ℚ) none none (some 3) (some 1)).dr) ∧
      (∀ m < (System.init (355 / 113 : ℚ) none none (some 3) (some 1)).n_points,
        (System.init (355 / 113 : ℚ) none none (some 3) (some 1)).k m =
          (System.init (355 / 113 : ℚ) none none (some 3) (some 1)).dk +
            (m : ℚ) * (System.init (355 / 113 : ℚ) none none (some 3) (some 1)).dk)) := by
  rintro ⟨-, hB, -⟩
  have h := hB 1 (by decide)
  have hr : (System.init (355 / 113 : ℚ) none none (some 3) (some 1)).r 1 = 1 := by
    with_unfolding_all rfl
  have hdr : (System.init (355 / 113 : ℚ) none none (some 3) (some 1)).dr = 1 := by
    with_unfolding_all rfl
  rw [hr, hdr] at h
  norm_num at h

/-- C4 (amended): after construction the reciprocal spacing satisfies
`dk = pi / (n_points * dr)`, and the grid points satisfy
`r[m] = dr + m * ((n_points - 2) * dr / (n_points - 1))` and
`k[m] = dk + m * ((n_points - 2) * dk / (n_points - 1))` for `m` below
`n_points` — linspace from `dr` to `n_points * dr - dr` with `n_points`
samples, so the spacing is `(n_points - 2) / (n_points - 1) * dr`, not `dr`. -/
theorem claim_C4 (pi : α) (Topt : Option α) (expOpt npOpt : Option ℕ) (drOpt : Option α)
    (s : System α) (hs : s = System.init pi Topt expOpt npOpt drOpt)
    (hP : 2 ≤ s.n_points) :
    s.dk = pi / ((s.n_points : α) * s.dr) ∧
    (∀ m < s.n_points,
      s.r m = s.dr + (m : α) * (((s.n_points : α) - 2) * s.dr / ((s.n_points : α) - 1))) ∧
    (∀ m < s.n_points,
      s.k m = s.dk + (m : α) * (((s.n_points : α) - 2) * s.dk / ((s.n_points : α) - 1))) := by
  subst hs
  refine ⟨?_, ?_, ?_⟩
  · rw [init_dk_eq, mul_comm]
  · intro m _
    rw [init_r_eq]
    exact linspace_step _ _ hP m
  · intro m _
    rw [init_k_eq]
    exact linspace_step _ _ hP m

/-- Witness for C4 (amended) at `n_points = 5`, `dr = 1`, grid point 1. -/
theorem claim_C4_witness :
    ((System.init (3 : ℚ) none none (some 5) (some 1)) =
        System.init (3 : ℚ) none none (some 5) (some 1)) ∧
    (2 ≤ (System.init (3 : ℚ) none none (some 5) (some 1)).n_points) ∧
    (System.init (3 : ℚ) none none (some 5) (some 1)).dk =
      3 / (((System.init (3 : ℚ) none none (some 5) (some 1)).n_points : ℚ) *
        (System.init (3 : ℚ) none none (some 5) (some 1)).dr) ∧
    (System.init (3 : ℚ) none none (some 5) (some 1)).r 1 =
      (System.init (3 : ℚ) none none (some 5) (some 1)).dr +
        ((1 : ℕ) : ℚ) *
          ((((System.init (3 : ℚ) none none (some 5) (some 1)).n_points : ℚ) - 2) *
              (System.init (3 : ℚ) none none (some 5) (some 1)).dr /
            (((System.init (3 : ℚ) none none (some 5) (some 1)).n_points : ℚ) - 1)) :=
  ⟨rfl, by decide,
    (claim_C4 3 none none (some 5) (some 1) _ rfl (by decide)).1,
    (claim_C4 3 none none (some 5) (some 1) _ rfl (by decide)).2.1 1 (by decide)⟩

/-- C2 fails on the code (the code is the slip): on a one-point grid, insert
2 at pair (0,0) and 5 at pair (1,1) (component count 2), then insert 7 at
(2,2).  `ndarray.resize` keeps the flat C-order buffer and zero-pads its end,
so after the growth to three components the previously stored pair (1,1) reads
0 — its old value 5 now sits at pair (1,0) — even though the tensor did grow
to `max(i,j)+1 = 3` components and the new value 7 landed at (2,2). -/
theorem claim_C2 :
    getUval c2sysBefore 1 1 0 = 5 ∧
    getShape c2sysAfter = 3 ∧
    getUval c2sysAfter 2 2 0 = 7 ∧
    getUval c2sysAfter 1 1 0 = 0 ∧
    getUval c2sysAfter 1 0 0 = 5 := by
  refine ⟨?_, ?_, ?_, ?_, ?_⟩ <;> with_unfolding_all rfl

/-- C9: constructing with kwarg `n_points = N` stores `n_points = N - 1`
(likewise `2 ^ E - 1` when only `n_points_exp = E` is given), the grid arrays
are built with `N - 1` sample points, and `set_interaction` accepts a
potential array exactly when its length is `N - 1`. -/
theorem claim_C9 (pi : α) (Topt : Option α) (expOpt : Option ℕ) (drOpt : Option α)
    (N E i j : ℕ) (p : List α) (sym : Bool) (hN : N ≠ 0) (hE : E ≠ 0) :
    (System.init pi Topt expOpt (some N) drOpt).n_points = N - 1 ∧
    (System.init pi Topt (some E) none drOpt).n_points = 2 ^ E - 1 ∧
    (System.init pi Topt expOpt (some N) drOpt).r =
      linspace (System.init pi Topt expOpt (some N) drOpt).dr
        (((N - 1 : ℕ) : α) * (System.init pi Topt expOpt (some N) drOpt).dr -
          (System.init pi Topt expOpt (some N) drOpt).dr) (N - 1) ∧
    ((∃ s2, setInteraction (System.init pi Topt expOpt (some N) drOpt) i j p sym =
        Except.ok s2) ↔ p.length = N - 1) := by
  have h1 : (System.init pi Topt expOpt (some N) drOpt).n_points = N - 1 := by
    show pyOr (some N) (2 ^ pyOr expOpt 12) - 1 = N - 1
    simp [pyOr, hN]
  refine ⟨h1, ?_, ?_, ?_⟩
  · show pyOr none (2 ^ pyOr (some E) 12) - 1 = 2 ^ E - 1
    simp [pyOr, hE]
  · rw [init_r_eq, h1]
  · unfold setInteraction
    rw [h1]
    constructor
    · rintro ⟨s2, hs⟩
      by_contra hne
      simp [hne] at hs
    · intro hlen
      simp [hlen]

/-- Witness for C9 at `N = 5`, `E = 3`, a length-4 potential. -/
theorem claim_C9_witness :
    ((5 : ℕ) ≠ 0) ∧ ((3 : ℕ) ≠ 0) ∧
    ((System.init (3 : ℚ) none none (some 5) (some 1)).n_points = 5 - 1 ∧
     (System.init (3 : ℚ) none (some 3) none (some 1)).n_points = 2 ^ 3 - 1 ∧
     (System.init (3 : ℚ) none none (some 5) (some 1)).r =
       linspace (System.init (3 : ℚ) none none (some 5) (some 1)).dr
         (((5 - 1 : ℕ) : ℚ) * (System.init (3 : ℚ) none none (some 5) (some 1)).dr -
           (System.init (3 : ℚ) none none (some 5) (some 1)).dr) (5 - 1) ∧
     ((∃ s2, setInteraction (System.init (3 : ℚ) none none (some 5) (some 1)) 0 0
         [0, 0, 0, 0] true = Except.ok s2) ↔ ([(0 : ℚ), 0, 0, 0]).length = 5 - 1)) :=
  ⟨by decide, by decide,
    claim_C9 3 none none (some 1) 5 3 0 0 [0, 0, 0, 0] true (by decide) (by decide)⟩

theorem solve_eq_afterLoop (ext : Ext α) (s : System α) (rhos rhos2 : List α)
    (closure_name : String) (initial_e_r : Option (Ten3 α)) (mix_param tol : α)
    (max_iter : ℕ) (kw : Kwargs α) (cl : ClosureFn α)
    (hv : validateSolveInputs s rhos = Except.ok rhos2)
    (hc : getClosureFunc ext.registry closure_name kw = Except.ok cl) :
    solve ext s rhos closure_name initial_e_r mix_param tol max_iter kw =
      solveAfterLoop { s with rho := some (setRhos ext rhos2) } kw cl
        (loopOf ext s rhos2 tol mix_param kw cl max_iter initial_e_r) := by
  unfold solve
  rw [hv, hc]

theorem solveLoop_budget_count (ext : Ext α) (s : System α) (rho : ℕ → ℕ → α)
    (tol mix_param : α) (kw : Kwargs α) (cl : ClosureFn α) (fuel : ℕ) :
    ∀ (n_iter m : ℕ) (e : Ten3 α),
      solveLoop ext s rho tol mix_param kw cl fuel n_iter e = LoopRes.budget m →
      m = n_iter + fuel := by
  induction fuel with
  | zero =>
    intro n m e h
    simp [solveLoop] at h
    omega
  | succ f ih =>
    intro n m e h
    simp only [solveLoop] at h
    cases hsd : stepDecision (ext.rms (iterate ext s rho kw cl e).1 e) tol mix_param
        (iterate ext s rho kw cl e).1 e with
    | accept e2 => rw [hsd] at h; simp at h
    | diverge => rw [hsd] at h; simp at h
    | continueWith e2 =>
      rw [hsd] at h
      have := ih (n + 1) m e2 h
      omega

theorem validate_ok_inv (s : System α) (rhos rhos2 : List α)
    (h : validateSolveInputs s rhos = Except.ok rhos2) :
    s.U_r.shape0 ≠ 0 ∧ s.U_r.shape0 = rhos.length := by
  unfold validateSolveInputs at h
  by_cases h1 : s.U_r.shape0 = 0
  · rw [if_pos h1] at h
    exact absurd h (by simp)
  · rw [if_neg h1] at h
    by_cases h2 : s.U_r.shape0 ≠ rhos.length
    · rw [if_pos h2] at h
      exact absurd h (by simp)
    · exact ⟨h1, by omega⟩

theorem getClosure_ok_inv (registry : String → Option (ClosureFn α))
    (closure_name : String) (kw : Kwargs α) (cl : ClosureFn α)
    (h : getClosureFunc registry closure_name kw = Except.ok cl) :
    registry closure_name.toUpper ≠ none ∧
    (closure_name.toUpper = "RHNC" →
      kw.g_r_ref.isNone = false ∧ kw.e_r_ref.isNone = false ∧
        kw.U_r_ref.isNone = false) := by
  unfold getClosureFunc at h
  by_cases h1 : closure_name.toUpper = "RHNC" ∧ kw.g_r_ref.isNone = true
  · rw [if_pos h1] at h
    exact absurd h (by simp)
  · rw [if_neg h1] at h
    by_cases h2 : closure_name.toUpper = "RHNC" ∧ kw.e_r_ref.isNone = true
    · rw [if_pos h2] at h
      exact absurd h (by simp)
    · rw [if_neg h2] at h
      by_cases h3 : closure_name.toUpper = "RHNC" ∧ kw.U_r_ref.isNone = true
      · rw [if_pos h3] at h
        exact absurd h (by simp)
      · rw [if_neg h3] at h
        cases hr : registry closure_name.toUpper with
        | none => rw [hr] at h; exact absurd h (by simp)
        | some cl2 =>
          refine ⟨by simp [hr], fun hR => ⟨?_, ?_, ?_⟩⟩
          · cases hg : kw.g_r_ref.isNone with
            | true => exact absurd ⟨hR, hg⟩ h1
            | false => rfl
          · cases hg : kw.e_r_ref.isNone with
            | true => exact absurd ⟨hR, hg⟩ h2
            | false => rfl
          · cases hg : kw.U_r_ref.isNone with
            | true => exact absurd ⟨hR, hg⟩ h3
            | false => rfl

/-- C5: whenever the loop converges, the closure is evaluated once more on the
accepted indirect correlation `e` to give the final direct correlation
`c = closure(U_r, e, T)`, the derived tensors are `g = c + e + 1` and
`h = g - 1`, the stored indirect correlation is exactly the accepted
`e` (convergence was decided on it alone), the stored structure factor is the
one of the final loop iteration, and the iteration count is untouched by this
final evaluation. -/
theorem claim_C5 (ext : Ext α) (s : System α) (rhos rhos2 : List α)
    (closure_name : String) (initial_e_r : Option (Ten3 α)) (mix_param tol : α)
    (max_iter : ℕ) (kw : Kwargs α) (cl : ClosureFn α)
    (hv : validateSolveInputs s rhos = Except.ok rhos2)
    (hc : getClosureFunc ext.registry closure_name kw = Except.ok cl)
    (hl : (loopOf ext s rhos2 tol mix_param kw cl max_iter initial_e_r).isConverged = true) :
    (solve ext s rhos closure_name initial_e_r mix_param tol max_iter kw).sys.c_r =
      some (cl s.U_r.get
        (loopOf ext s rhos2 tol mix_param kw cl max_iter initial_e_r).getE s.T kw) ∧
    (solve ext s rhos closure_name initial_e_r mix_param tol max_iter kw).sys.g_r =
      some (fun i j m =>
        cl s.U_r.get (loopOf ext s rhos2 tol mix_param kw cl max_iter initial_e_r).getE
            s.T kw i j m +
          (loopOf ext s rhos2 tol mix_param kw cl max_iter initial_e_r).getE i j m + 1) ∧
    (solve ext s rhos closure_name initial_e_r mix_param tol max_iter kw).sys.h_r =
      some (fun i j m =>
        cl s.U_r.get (loopOf ext s rhos2 tol mix_param kw cl max_iter initial_e_r).getE
            s.T kw i j m +
          (loopOf ext s rhos2 tol mix_param kw cl max_iter initial_e_r).getE i j m + 1 - 1) ∧
    (solve ext s rhos closure_name initial_e_r mix_param tol max_iter kw).sys.e_r =
      some (loopOf ext s rhos2 tol mix_param kw cl max_iter initial_e_r).getE ∧
    (solve ext s rhos closure_name initial_e_r mix_param tol max_iter kw).sys.S_k =
      some (loopOf ext s rhos2 tol mix_param kw cl max_iter initial_e_r).getS ∧
    (solve ext s rhos closure_name initial_e_r mix_param tol max_iter kw).iters =
      (loopOf ext s rhos2 tol mix_param kw cl max_iter initial_e_r).iterCount := by
  rw [solve_eq_afterLoop ext s rhos rhos2 closure_name initial_e_r mix_param tol
    max_iter kw cl hv hc]
  cases hL : loopOf ext s rhos2 tol mix_param kw cl max_iter initial_e_r with
  | diverged n => rw [hL] at hl; simp [LoopRes.isConverged] at hl
  | budget n => rw [hL] at hl; simp [LoopRes.isConverged] at hl
  | converged e S n =>
    simp only [solveAfterLoop, LoopRes.getE, LoopRes.getS, LoopRes.iterCount]
    split_ifs with hphys
    · exact ⟨rfl, rfl, rfl, rfl, rfl, rfl⟩
    · exact ⟨rfl, rfl, rfl, rfl, rfl, rfl⟩

/-- Witness for C5: the toy system converges in one iteration and the final
closure evaluation populates the stored tensors. -/
theorem claim_C5_witness :
    (validateSolveInputs toySys [(1 : ℚ)] = Except.ok [(1 : ℚ)]) ∧
    (getClosureFunc extConv.registry "hnc" noKw = Except.ok toyClosure) ∧
    ((loopOf extConv toySys [(1 : ℚ)] 1 (4 / 5) noKw toyClosure 5 none).isConverged = true) ∧
    (solve extConv toySys [(1 : ℚ)] "hnc" none (4 / 5) 1 5 noKw).sys.e_r =
      some (loopOf extConv toySys [(1 : ℚ)] 1 (4 / 5) noKw toyClosure 5 none).getE :=
  ⟨by with_unfolding_all rfl, by with_unfolding_all rfl, by with_unfolding_all rfl,
    (claim_C5 extConv toySys [(1 : ℚ)] [(1 : ℚ)] "hnc" none (4 / 5) 1 5 noKw toyClosure
      (by with_unfolding_all rfl) (by with_unfolding_all rfl)
      (by with_unfolding_all rfl)).2.2.2.1⟩

/-- C6: if the loop converges but the final structure factor has a negative
entry, `solve` fails with the unphysical-result error, yet all five computed
tensors have already been stored on the `System` and remain readable. -/
theorem claim_C6 (ext : Ext α) (s : System α) (rhos rhos2 : List α)
    (closure_name : String) (initial_e_r : Option (Ten3 α)) (mix_param tol : α)
    (max_iter : ℕ) (kw : Kwargs α) (cl : ClosureFn α)
    (hv : validateSolveInputs s rhos = Except.ok rhos2)
    (hc : getClosureFunc ext.registry closure_name kw = Except.ok cl)
    (hl : (loopOf ext s rhos2 tol mix_param kw cl max_iter initial_e_r).isConverged = true)
    (hneg : anyNeg s.U_r.shape0 s.n_points
      (loopOf ext s rhos2 tol mix_param kw cl max_iter initial_e_r).getS = true) :
    (solve ext s rhos closure_name initial_e_r mix_param tol max_iter kw).res =
      Except.error ⟨"Converged to unphysical result."⟩ ∧
    (solve ext s rhos closure_name initial_e_r mix_param tol max_iter kw).sys.c_r =
      some (cl s.U_r.get
        (loopOf ext s rhos2 tol mix_param kw cl max_iter initial_e_r).getE s.T kw) ∧
    (solve ext s rhos closure_name initial_e_r mix_param tol max_iter kw).sys.g_r =
      some (fun i j m =>
        cl s.U_r.get (loopOf ext s rhos2 tol mix_param kw cl max_iter initial_e_r).getE
            s.T kw i j m +
          (loopOf ext s rhos2 tol mix_param kw cl max_iter initial_e_r).getE i j m + 1) ∧
    (solve ext s rhos closure_name initial_e_r mix_param tol max_iter kw).sys.h_r =
      some (fun i j m =>
        cl s.U_r.get (loopOf ext s rhos2 tol mix_param kw cl max_iter initial_e_r).getE
            s.T kw i j m +
          (loopOf ext s rhos2 tol mix_param kw cl max_iter initial_e_r).getE i j m + 1 - 1) ∧
    (solve ext s rhos closure_name initial_e_r mix_param tol max_iter kw).sys.e_r =
      some (loopOf ext s rhos2 tol mix_param kw cl max_iter initial_e_r).getE ∧
    (solve ext s rhos closure_name initial_e_r mix_param tol max_iter kw).sys.S_k =
      some (loopOf ext s rhos2 tol mix_param kw cl max_iter initial_e_r).getS := by
  rw [solve_eq_afterLoop ext s rhos rhos2 closure_name initial_e_r mix_param tol
    max_iter kw cl hv hc]
  cases hL : loopOf ext s rhos2 tol mix_param kw cl max_iter initial_e_r with
  | diverged n => rw [hL] at hl; simp [LoopRes.isConverged] at hl
  | budget n => rw [hL] at hl; simp [LoopRes.isConverged] at hl
  | converged e S n =>
    rw [hL] at hneg
    simp only [LoopRes.getS] at hneg
    simp only [solveAfterLoop, LoopRes.getE, LoopRes.getS]
    rw [if_pos hneg]
    exact ⟨rfl, rfl, rfl, rfl, rfl, rfl⟩

/-- Witness for C6: with the constant -1 toy closure the structure factor is
negative, the call fails, and the tensors are stored regardless. -/
theorem claim_C6_witness :
    (validateSolveInputs toySys [(1 : ℚ)] = Except.ok [(1 : ℚ)]) ∧
    (getClosureFunc extConv.registry "neg" noKw = Except.ok toyClosureNeg) ∧
    ((loopOf extConv toySys [(1 : ℚ)] 1 (4 / 5) noKw toyClosureNeg 5 none).isConverged = true) ∧
    (anyNeg toySys.U_r.shape0 toySys.n_points
      (loopOf extConv toySys [(1 : ℚ)] 1 (4 / 5) noKw toyClosureNeg 5 none).getS = true) ∧
    (solve extConv toySys [(1 : ℚ)] "neg" none (4 / 5) 1 5 noKw).res =
      Except.error ⟨"Converged to unphysical result."⟩ :=
  ⟨by with_unfolding_all rfl, by with_unfolding_all rfl, by with_unfolding_all rfl,
    by with_unfolding_all rfl,
    (claim_C6 extConv toySys [(1 : ℚ)] [(1 : ℚ)] "neg" none (4 / 5) 1 5 noKw toyClosureNeg
      (by with_unfolding_all rfl) (by with_unfolding_all rfl) (by with_unfolding_all rfl)
      (by with_unfolding_all rfl)).1⟩

/-- C7: when the loop runs out of its iteration budget without converging,
`solve` raises the non-convergence error (mentioning the iteration count,
which then equals `max_iter`) instead of returning the last iterate. -/
theorem claim_C7 (ext : Ext α) (s : System α) (rhos rhos2 : List α)
    (closure_name : String) (initial_e_r : Option (Ten3 α)) (mix_param tol : α)
    (max_iter : ℕ) (kw : Kwargs α) (cl : ClosureFn α)
    (hv : validateSolveInputs s rhos = Except.ok rhos2)
    (hc : getClosureFunc ext.registry closure_name kw = Except.ok cl)
    (hb : (loopOf ext s rhos2 tol mix_param kw cl max_iter initial_e_r).isBudget = true) :
    (solve ext s rhos closure_name initial_e_r mix_param tol max_iter kw).res =
      Except.error ⟨"Exceeded max # of iterations: " ++ toString max_iter⟩ := by
  rw [solve_eq_afterLoop ext s rhos rhos2 closure_name initial_e_r mix_param tol
    max_iter kw cl hv hc]
  cases hL : loopOf ext s rhos2 tol mix_param kw cl max_iter initial_e_r with
  | diverged n => rw [hL] at hb; simp [LoopRes.isBudget] at hb
  | converged e S n => rw [hL] at hb; simp [LoopRes.isBudget] at hb
  | budget n =>
    have hn : n = max_iter := by
      have h2 := solveLoop_budget_count ext { s with rho := some (setRhos ext rhos2) }
        (setRhos ext rhos2) tol mix_param kw cl max_iter 0 n (initial_e_r.getD zeroTen)
        (by unfold loopOf at hL; exact hL)
      omega
    subst hn
    rfl

/-- Witness for C7: a toy metric stuck at 1 against tolerance 1 exhausts a
budget of 2 iterations. -/
theorem claim_C7_witness :
    (validateSolveInputs toySys [(1 : ℚ)] = Except.ok [(1 : ℚ)]) ∧
    (getClosureFunc extStuck.registry "hnc" noKw = Except.ok toyClosure) ∧
    ((loopOf extStuck toySys [(1 : ℚ)] 1 (4 / 5) noKw toyClosure 2 none).isBudget = true) ∧
    (solve extStuck toySys [(1 : ℚ)] "hnc" none (4 / 5) 1 2 noKw).res =
      Except.error ⟨"Exceeded max # of iterations: " ++ toString (2 : ℕ)⟩ :=
  ⟨by with_unfolding_all rfl, by with_unfolding_all rfl, by with_unfolding_all rfl,
    claim_C7 extStuck toySys [(1 : ℚ)] [(1 : ℚ)] "hnc" none (4 / 5) 1 2 noKw toyClosure
      (by with_unfolding_all rfl) (by with_unfolding_all rfl)
      (by with_unfolding_all rfl)⟩

/-- C8: each configuration error — no interactions, density count mismatch,
unsupported closure name, or a missing RHNC reference parameter — makes
`solve` fail before the first loop iteration executes. -/
theorem claim_C8 (ext : Ext α) (s : System α) (rhos : List α) (closure_name : String)
    (initial_e_r : Option (Ten3 α)) (mix_param tol : α) (max_iter : ℕ) (kw : Kwargs α)
    (h : s.U_r.shape0 = 0 ∨ s.U_r.shape0 ≠ rhos.length ∨
      ext.registry closure_name.toUpper = none ∨
      (closure_name.toUpper = "RHNC" ∧
        (kw.g_r_ref.isNone = true ∨ kw.e_r_ref.isNone = true ∨
          kw.U_r_ref.isNone = true))) :
    exceptIsErr (solve ext s rhos closure_name initial_e_r mix_param tol max_iter kw).res =
      true ∧
    (solve ext s rhos closure_name initial_e_r mix_param tol max_iter kw).iters = 0 := by
  unfold solve
  cases hval : validateSolveInputs s rhos with
  | error e => exact ⟨rfl, rfl⟩
  | ok rhos2 =>
    cases hclo : getClosureFunc ext.registry closure_name kw with
    | error e => exact ⟨rfl, rfl⟩
    | ok cl =>
      exfalso
      obtain ⟨hnz, hlen⟩ := validate_ok_inv s rhos rhos2 hval
      obtain ⟨hreg, hrh⟩ := getClosure_ok_inv ext.registry closure_name kw cl hclo
      rcases h with h | h | h | ⟨hR, hmiss⟩
      · exact hnz h
      · exact h hlen
      · exact hreg h
      · obtain ⟨h1, h2, h3⟩ := hrh hR
        rcases hmiss with hm | hm | hm <;> simp_all

/-- Witness for C8: a system with no interactions fails with zero iterations
executed. -/
theorem claim_C8_witness :
    (toyBase.U_r.shape0 = 0 ∨ toyBase.U_r.shape0 ≠ ([(1 : ℚ)]).length ∨
      extConv.registry ("hnc").toUpper = none ∨
      (("hnc").toUpper = "RHNC" ∧
        (noKw.g_r_ref.isNone = true ∨ noKw.e_r_ref.isNone = true ∨
          noKw.U_r_ref.isNone = true))) ∧
    (exceptIsErr (solve extConv toyBase [(1 : ℚ)] "hnc" none (4 / 5) 1 5 noKw).res = true ∧
      (solve extConv toyBase [(1 : ℚ)] "hnc" none (4 / 5) 1 5 noKw).iters = 0) :=
  ⟨Or.inl rfl,
    claim_C8 extConv toyBase [(1 : ℚ)] "hnc" none (4 / 5) 1 5 noKw (Or.inl rfl)⟩

/-- C10: when `solve` fails by divergence or by exhausting the iteration
budget, the five stored result tensors are exactly what they were before the
call (they are assigned only after the loop exits normally). -/
theorem claim_C10 (ext : Ext α) (s : System α) (rhos rhos2 : List α)
    (closure_name : String) (initial_e_r : Option (Ten3 α)) (mix_param tol : α)
    (max_iter : ℕ) (kw : Kwargs α) (cl : ClosureFn α)
    (hv : validateSolveInputs s rhos = Except.ok rhos2)
    (hc : getClosureFunc ext.registry closure_name kw = Except.ok cl)
    (hde : (loopOf ext s rhos2 tol mix_param kw cl max_iter initial_e_r).isDiverged = true ∨
      (loopOf ext s rhos2 tol mix_param kw cl max_iter initial_e_r).isBudget = true) :
    exceptIsErr (solve ext s rhos closure_name initial_e_r mix_param tol max_iter kw).res =
      true ∧
    (solve ext s rhos closure_name initial_e_r mix_param tol max_iter kw).sys.g_r = s.g_r ∧
    (solve ext s rhos closure_name initial_e_r mix_param tol max_iter kw).sys.c_r = s.c_r ∧
    (solve ext s rhos closure_name initial_e_r mix_param tol max_iter kw).sys.h_r = s.h_r ∧
    (solve ext s rhos closure_name initial_e_r mix_param tol max_iter kw).sys.e_r = s.e_r ∧
    (solve ext s rhos closure_name initial_e_r mix_param tol max_iter kw).sys.S_k = s.S_k := by
  rw [solve_eq_afterLoop ext s rhos rhos2 closure_name initial_e_r mix_param tol
    max_iter kw cl hv hc]
  cases hL : loopOf ext s rhos2 tol mix_param kw cl max_iter initial_e_r with
  | converged e S n =>
    rw [hL] at hde
    simp [LoopRes.isDiverged, LoopRes.isBudget] at hde
  | diverged n => exact ⟨rfl, rfl, rfl, rfl, rfl, rfl⟩
  | budget n => exact ⟨rfl, rfl, rfl, rfl, rfl, rfl⟩

/-- Witness for C10: a NaN metric diverges on iteration 1 and the result
tensors of the toy system are untouched. -/
theorem claim_C10_witness :
    (validateSolveInputs toySys [(1 : ℚ)] = Except.ok [(1 : ℚ)]) ∧
    (getClosureFunc extNan.registry "hnc" noKw = Except.ok toyClosure) ∧
    ((loopOf extNan toySys [(1 : ℚ)] 1 (4 / 5) noKw toyClosure 5 none).isDiverged = true ∨
      (loopOf extNan toySys [(1 : ℚ)] 1 (4 / 5) noKw toyClosure 5 none).isBudget = true) ∧
    (exceptIsErr (solve extNan toySys [(1 : ℚ)] "hnc" none (4 / 5) 1 5 noKw).res = true ∧
      (solve extNan toySys [(1 : ℚ)] "hnc" none (4 / 5) 1 5 noKw).sys.g_r = toySys.g_r ∧
      (solve extNan toySys [(1 : ℚ)] "hnc" none (4 / 5) 1 5 noKw).sys.c_r = toySys.c_r ∧
      (solve extNan toySys [(1 : ℚ)] "hnc" none (4 / 5) 1 5 noKw).sys.h_r = toySys.h_r ∧
      (solve extNan toySys [(1 : ℚ)] "hnc" none (4 / 5) 1 5 noKw).sys.e_r = toySys.e_r ∧
      (solve extNan toySys [(1 : ℚ)] "hnc" none (4 / 5) 1 5 noKw).sys.S_k = toySys.S_k) :=
  ⟨by with_unfolding_all rfl, by with_unfolding_all rfl,
    Or.inl (by with_unfolding_all rfl),
    claim_C10 extNan toySys [(1 : ℚ)] [(1 : ℚ)] "hnc" none (4 / 5) 1 5 noKw toyClosure
      (by with_unfolding_all rfl) (by with_unfolding_all rfl)
      (Or.inl (by with_unfolding_all rfl))⟩

end Pyoz
